import Mathlib

/-!
Verification of the Xano MCP server (src/xano_mcp.py) against its
natural-language specification.

The development shallowly embeds the request dispatcher `make_api_request`,
the credential resolver `get_token`, the identifier normalizer `format_id`,
and the tool wrappers `xano_list_instances`, `xano_list_databases`,
`xano_list_tables`, and `xano_get_table_details`.

Modelling conventions:
  - JSON values decoded from response bodies are the inductive `Json`.
  - The network is a parameter: an `Outcome` says what the single outbound
    HTTP call would produce (a response, or an exception raised by the
    client).  `response.json()` is modelled by the `jsonBody : Option Json`
    field of `HttpResponse` (`none` meaning the body does not decode, i.e.
    `json.JSONDecodeError` is raised).
  - The dispatcher returns a `DispatchResult` recording the outbound call it
    issued (if any), the returned value, and the log lines emitted.  Log
    entries carry the logged data structurally; the JSON serialization and
    500-character truncation of the logged request body are abstracted by
    carrying the body value itself.
  - Python truthiness tests (`if data:`, `if files:`, `if token:`) are
    modelled by explicit truthiness functions.
  - The membership test `"k" in v` and the subscript `v["k"]` applied to an
    arbitrary decoded JSON value follow Python semantics: key membership on
    dicts, element membership on lists, substring membership on strings, and
    a TypeError on the remaining scalars; subscripting by a string is only
    defined on dicts.  Faults that escape a tool function (TypeError,
    KeyError, SystemExit from sys.exit) appear as `Except.error (f : PyFault)`.
-/

namespace XanoMcp

/-- JSON values, as produced by decoding a response body. -/
inductive Json where
  | null : Json
  | bool (b : Bool) : Json
  | num (n : Int) : Json
  | str (s : String) : Json
  | arr (elems : List Json) : Json
  | obj (fields : List (String × Json)) : Json

/-- Header mapping, as the list of key/value pairs the source builds. -/
abbrev Headers := List (String × String)

/-- Multipart file payload (field name, file content); opaque to the logic. -/
abbrev Files := List (String × String)

/-- Python truthiness of a JSON value. -/
def Json.truthy : Json → Bool
  | Json.null => false
  | Json.bool b => b
  | Json.num n => !(n == 0)
  | Json.str s => !(s == "")
  | Json.arr xs => !xs.isEmpty
  | Json.obj fs => !fs.isEmpty

/-- Python truthiness of an optional JSON value (None is falsy). -/
def optJsonTruthy : Option Json → Bool
  | none => false
  | some j => j.truthy

/-- Python truthiness of the optional `files` argument. -/
def filesTruthy : Option Files → Bool
  | none => false
  | some fs => !fs.isEmpty

/-- What `httpx` hands back for the single outbound call: `status_code`,
the result of attempting `response.json()`, and the raw `text`. -/
structure HttpResponse where
  status_code : Nat
  jsonBody : Option Json
  text : String

/-- The behavior of the remote side for the outbound call: either a
response arrives, or the client raises an exception with the given
description (connection failure, timeout, TLS error, ...). -/
inductive Outcome where
  | resp (r : HttpResponse) : Outcome
  | raised (msg : String) : Outcome

/-- The exact client invocation issued, one constructor per branch of the
five-way method dispatch in `make_api_request`. -/
inductive HttpCall where
  | get (url : String) (headers : Headers) (params : Option Json) : HttpCall
  | postMultipart (url : String) (headers : Headers) (data : Option Json)
      (files : Option Files) : HttpCall
  | postJson (url : String) (headers : Headers) (data : Option Json) : HttpCall
  | put (url : String) (headers : Headers) (data : Option Json) : HttpCall
  | deleteWithBody (url : String) (headers : Headers) (data : Option Json) : HttpCall
  | deleteNoBody (url : String) (headers : Headers) : HttpCall
  | patch (url : String) (headers : Headers) (data : Option Json) : HttpCall

/-- One emitted log line.  `infoParams` and `infoData` carry the logged
value structurally (the source logs its serialization, truncated). -/
inductive LogEntry where
  | info (msg : String) : LogEntry
  | infoParams (params : Json) : LogEntry
  | infoData (data : Json) : LogEntry
  | err (msg : String) : LogEntry

/-- Everything observable about one run of `make_api_request`: the outbound
call issued (`none` when no network call was made), the returned value,
and the log. -/
structure DispatchResult where
  call : Option HttpCall
  result : Json
  log : List LogEntry

/-- The five-way method dispatch of `make_api_request` (lines 60-80 of the
source): which client invocation is issued, or the ValueError message for
an unsupported method. -/
def selectCall (url : String) (headers : Headers) (method : String)
    (data : Option Json) (params : Option Json) (files : Option Files) :
    Except String HttpCall :=
  if method = "GET" then Except.ok (HttpCall.get url headers params)
  else if method = "POST" then
    if filesTruthy files then Except.ok (HttpCall.postMultipart url headers data files)
    else Except.ok (HttpCall.postJson url headers data)
  else if method = "PUT" then Except.ok (HttpCall.put url headers data)
  else if method = "DELETE" then
    if optJsonTruthy data then Except.ok (HttpCall.deleteWithBody url headers data)
    else Except.ok (HttpCall.deleteNoBody url headers)
  else if method = "PATCH" then Except.ok (HttpCall.patch url headers data)
  else Except.error ("Unsupported method: " ++ method)

/-- The request dispatcher (source lines 47-101).  The try/except block is
modelled by the two failure paths that can raise: the ValueError of an
unsupported method (before any network call) and an exception from the
client (`Outcome.raised`); both are converted to the
"Exception during API request: ..." error mapping. -/
def make_api_request (url : String) (headers : Headers) (method : String)
    (data : Option Json) (params : Option Json) (files : Option Files)
    (debug : Bool) (outcome : Outcome) : DispatchResult :=
  let lg : List LogEntry :=
    if debug then
      [LogEntry.info ("Making " ++ method ++ " request to " ++ url)]
      ++ (match params with
          | some ps => if ps.truthy then [LogEntry.infoParams ps] else []
          | none => [])
      ++ (match data with
          | some d => if d.truthy && !(filesTruthy files) then [LogEntry.infoData d] else []
          | none => [])
    else []
  match selectCall url headers method data params files with
  | Except.error emsg =>
    let fullMsg := "Exception during API request: " ++ emsg
    { call := none
      result := Json.obj [("error", Json.str fullMsg)]
      log := lg ++ (if debug then [LogEntry.err fullMsg] else []) }
  | Except.ok c =>
    match outcome with
    | Outcome.raised emsg =>
      let fullMsg := "Exception during API request: " ++ emsg
      { call := some c
        result := Json.obj [("error", Json.str fullMsg)]
        log := lg ++ (if debug then [LogEntry.err fullMsg] else []) }
    | Outcome.resp r =>
      let lg2 := lg ++
        (if debug then [LogEntry.info ("Response status: " ++ toString r.status_code)] else [])
      if r.status_code = 200 then
        match r.jsonBody with
        | some j => { call := some c, result := j, log := lg2 }
        | none =>
          { call := some c
            result := Json.obj [("error", Json.str "Failed to parse response as JSON")]
            log := lg2 ++ (if debug then
              [LogEntry.err ("Error parsing JSON response: " ++ r.text.take 200 ++ "...")]
              else []) }
      else
        { call := some c
          result := Json.obj
            [("error", Json.str ("API request failed with status " ++ toString r.status_code))]
          log := lg2 ++ (if debug then
            [LogEntry.err ("Error response: " ++ r.text.take 200 ++ "...")]
            else []) }

/-- The configuration mapping, restricted to the two keys the source ever
reads: `api_token` and `debug` (each possibly absent). -/
structure Config where
  api_token : Option String
  debug : Option Bool

/-- The expression `config.get('debug', False) if config else False`. -/
def configDebug : Option Config → Bool
  | some c => c.debug.getD false
  | none => false

/-- The credential resolver `get_token` (source lines 29-43).  `env` is the
value of the XANO_API_TOKEN environment variable (`none` when unset).
`Except.error 1` models `sys.exit(1)`.  The check
`if config and 'api_token' in config` collapses to `config.bind api_token`
(a dict containing the key is nonempty, hence truthy); the environment
value is returned only when truthy (`if token:`), so a variable set to the
empty string falls through to the exit. -/
def get_token (config : Option Config) (env : Option String) : Except Nat String :=
  match config.bind (fun c => c.api_token) with
  | some t => Except.ok t
  | none =>
    match env with
    | some t => if t = "" then Except.error 1 else Except.ok t
    | none => Except.error 1

/-- Values an identifier argument can arrive as (the source applies `str`
before stripping, so quoted strings and bare integers both occur). -/
inductive IdValue where
  | null : IdValue
  | str (s : String) : IdValue
  | int (n : Int) : IdValue

/-- The conversion `str(id_value)`. -/
def pyStr : IdValue → String
  | IdValue.null => "None"
  | IdValue.str s => s
  | IdValue.int n => toString n

/-- Membership of a character in the strip set. -/
def stripSet (chars : List Char) (c : Char) : Bool := chars.contains c

/-- Python `s.strip(chars)`: remove every leading and every trailing
character belonging to `chars`. -/
def pyStrip (chars : List Char) (s : String) : String :=
  String.mk (List.rdropWhile (stripSet chars) (List.dropWhile (stripSet chars) s.toList))

/-- The identifier normalizer `format_id` (source lines 105-109):
None passes through, anything else is converted to a string and stripped
of surrounding double-quote characters. -/
def format_id : IdValue → Option String
  | IdValue.null => none
  | v => some (pyStrip ['\"'] (pyStr v))

/-- `format_id` restricted to string identifiers (every tool passes its
string parameters through `format_id` before URL interpolation). -/
def formatIdStr (s : String) : String := pyStrip ['\"'] s

/-- The base URL of the account-level meta API (source line 21). -/
def XANO_GLOBAL_API : String := "https://app.xano.com/api:meta"

/-- The per-instance meta API base URL
(`instance_domain = f"{instance_name}.n7c.xano.io"` and
`meta_api = f"https://{instance_domain}/api:meta"`). -/
def instanceMetaApi (instance_name : String) : String :=
  "https://" ++ (instance_name ++ ".n7c.xano.io") ++ "/api:meta"

/-- The URL built by `xano_list_databases`. -/
def xano_list_databases_url (instance_name : String) : String :=
  instanceMetaApi instance_name ++ "/workspace"

/-- The URL built by `xano_list_tables` (the workspace identifier is
normalized first). -/
def xano_list_tables_url (instance_name database_name : String) : String :=
  instanceMetaApi instance_name ++ "/workspace/" ++ formatIdStr database_name ++ "/table"

/-- The URL built by `xano_get_table_details` (source lines 290-296): both
identifiers are normalized with `format_id` before interpolation. -/
def xano_get_table_details_url (instance_name workspace_id table_id : String) : String :=
  instanceMetaApi instance_name ++ "/workspace/" ++ formatIdStr workspace_id
    ++ "/table/" ++ formatIdStr table_id

/-- The header mapping each tool builds around the resolved token. -/
def mkHeaders (token : String) : Headers :=
  [("Authorization", "Bearer " ++ token),
   ("Content-Type", "application/json"),
   ("Accept", "application/json")]

/-- A fault that escapes a tool function: an uncaught TypeError or
KeyError, or the SystemExit raised by `sys.exit` inside `get_token`. -/
inductive PyFault where
  | typeError : PyFault
  | keyError : PyFault
  | exit (code : Nat) : PyFault

/-- Python equality of the string `s` against a JSON value (as used by
list membership): true exactly on the equal string. -/
def jsonEqStr (s : String) : Json → Bool
  | Json.str t => s == t
  | _ => false

/-- Does the character list start with the given needle. -/
def prefixMatches : List Char → List Char → Bool
  | [], _ => true
  | _ :: _, [] => false
  | a :: restA, b :: restB => a == b && prefixMatches restA restB

/-- Does the needle occur contiguously anywhere in the haystack. -/
def hasSubAt : List Char → List Char → Bool
  | needle, [] => needle.isEmpty
  | needle, c :: rest => prefixMatches needle (c :: rest) || hasSubAt needle rest

/-- Python substring membership `needle in hay` on strings. -/
def strContainsSub (hay needle : String) : Bool := hasSubAt needle.toList hay.toList

/-- Key presence in an object field list. -/
def hasKeyB (fields : List (String × Json)) (k : String) : Bool :=
  fields.any (fun kv => kv.1 == k)

/-- First value stored under a key in an object field list. -/
def lookupKey (fields : List (String × Json)) (k : String) : Option Json :=
  (fields.find? (fun kv => kv.1 == k)).map (fun kv => kv.2)

/-- Python `k in v` for a string `k` and a decoded JSON value `v`:
key membership on dicts, element membership on lists, substring test on
strings, TypeError on null, booleans and numbers. -/
def strInJson (k : String) (j : Json) : Except PyFault Bool :=
  match j with
  | Json.obj fields => Except.ok (hasKeyB fields k)
  | Json.arr xs => Except.ok (xs.any (jsonEqStr k))
  | Json.str s => Except.ok (strContainsSub s k)
  | _ => Except.error PyFault.typeError

/-- Python `v[k]` for a string `k`: defined on dicts (KeyError when the
key is absent), TypeError on every other JSON value. -/
def jsonIndexStr (j : Json) (k : String) : Except PyFault Json :=
  match j with
  | Json.obj fields =>
    match lookupKey fields k with
    | some v => Except.ok v
    | none => Except.error PyFault.keyError
  | _ => Except.error PyFault.typeError

/-- The hardcoded fallback returned by `xano_list_instances` (source lines
139-149). -/
def fallbackInstances : Json :=
  Json.obj [("instances", Json.arr [Json.obj
    [("name", Json.str "xnwv-v1z6-dvnr"),
     ("display", Json.str "Robert"),
     ("xano_domain", Json.str "xnwv-v1z6-dvnr.n7c.xano.io"),
     ("rate_limit", Json.bool false),
     ("meta_api", Json.str "https://xnwv-v1z6-dvnr.n7c.xano.io/api:meta"),
     ("meta_swagger", Json.str "https://xnwv-v1z6-dvnr.n7c.xano.io/apispec:meta?type=json")]])]

/-- The tool `xano_list_instances` (source lines 117-149).  The guard
`if "error" not in result and "instances" in result` is evaluated with
Python short-circuiting; either membership test can raise a TypeError on a
non-container result, and `result["instances"]` is a dict subscript. -/
def xano_list_instances (config : Option Config) (env : Option String)
    (outcome : Outcome) : Except PyFault Json :=
  match get_token config env with
  | Except.error code => Except.error (PyFault.exit code)
  | Except.ok token =>
    let d := make_api_request (XANO_GLOBAL_API ++ "/auth/me") (mkHeaders token)
      "GET" none none none (configDebug config) outcome
    match strInJson "error" d.result with
    | Except.error f => Except.error f
    | Except.ok errPresent =>
      if errPresent then Except.ok fallbackInstances
      else
        match strInJson "instances" d.result with
        | Except.error f => Except.error f
        | Except.ok instPresent =>
          if instPresent then
            match jsonIndexStr d.result "instances" with
            | Except.error f => Except.error f
            | Except.ok v => Except.ok (Json.obj [("instances", v)])
          else Except.ok fallbackInstances

/-- The tool `xano_list_databases` (source lines 171-199): dispatch, then
return the result unchanged when it contains an "error" member, and the
result wrapped under "databases" otherwise. -/
def xano_list_databases (instance_name : String) (config : Option Config)
    (env : Option String) (outcome : Outcome) : Except PyFault Json :=
  match get_token config env with
  | Except.error code => Except.error (PyFault.exit code)
  | Except.ok token =>
    let d := make_api_request (xano_list_databases_url instance_name) (mkHeaders token)
      "GET" none none none (configDebug config) outcome
    match strInJson "error" d.result with
    | Except.error f => Except.error f
    | Except.ok errPresent =>
      if errPresent then Except.ok d.result
      else Except.ok (Json.obj [("databases", d.result)])

/-- The tool `xano_list_tables` (source lines 237-267): same shape as
`xano_list_databases` with the workspace identifier normalized and the
wrap key "tables". -/
def xano_list_tables (instance_name database_name : String) (config : Option Config)
    (env : Option String) (outcome : Outcome) : Except PyFault Json :=
  match get_token config env with
  | Except.error code => Except.error (PyFault.exit code)
  | Except.ok token =>
    let d := make_api_request (xano_list_tables_url instance_name database_name)
      (mkHeaders token) "GET" none none none (configDebug config) outcome
    match strInJson "error" d.result with
    | Except.error f => Except.error f
    | Except.ok errPresent =>
      if errPresent then Except.ok d.result
      else Except.ok (Json.obj [("tables", d.result)])

/-- The tool `xano_get_table_details` (source lines 270-299): normalize
both identifiers, dispatch, and return the dispatcher result unchanged. -/
def xano_get_table_details (instance_name workspace_id table_id : String)
    (config : Option Config) (env : Option String) (outcome : Outcome) :
    Except PyFault Json :=
  match get_token config env with
  | Except.error code => Except.error (PyFault.exit code)
  | Except.ok token =>
    let d := make_api_request (xano_get_table_details_url instance_name workspace_id table_id)
      (mkHeaders token) "GET" none none none (configDebug config) outcome
    Except.ok d.result

/-- The method enumeration the dispatcher supports. -/
def supportedMethod (m : String) : Prop :=
  m = "GET" ∨ m = "POST" ∨ m = "PUT" ∨ m = "DELETE" ∨ m = "PATCH"

/-- Every supported method selects some client invocation. -/
theorem selectCall_ok_of_supported (url : String) (headers : Headers) {method : String}
    (data params : Option Json) (files : Option Files) (hm : supportedMethod method) :
    ∃ c, selectCall url headers method data params files = Except.ok c := by
  rcases hm with rfl | rfl | rfl | rfl | rfl
  · exact ⟨_, rfl⟩
  · unfold selectCall
    by_cases hf : filesTruthy files <;> simp [hf]
  · exact ⟨_, rfl⟩
  · unfold selectCall
    by_cases hd : optJsonTruthy data <;> simp [hd]
  · exact ⟨_, rfl⟩

/-- An unsupported method makes the dispatch raise the ValueError. -/
theorem selectCall_unsupported_eq (url : String) (headers : Headers) {method : String}
    (data params : Option Json) (files : Option Files) (hm : ¬ supportedMethod method) :
    selectCall url headers method data params files =
      Except.error ("Unsupported method: " ++ method) := by
  have h1 : ¬ (method = "GET") := fun h => hm (Or.inl h)
  have h2 : ¬ (method = "POST") := fun h => hm (Or.inr (Or.inl h))
  have h3 : ¬ (method = "PUT") := fun h => hm (Or.inr (Or.inr (Or.inl h)))
  have h4 : ¬ (method = "DELETE") := fun h => hm (Or.inr (Or.inr (Or.inr (Or.inl h))))
  have h5 : ¬ (method = "PATCH") := fun h => hm (Or.inr (Or.inr (Or.inr (Or.inr h))))
  unfold selectCall
  rw [if_neg h1, if_neg h2, if_neg h3, if_neg h4, if_neg h5]

/-- C1: for every supported method, a 200 response whose body decodes as a
JSON value makes `make_api_request` return exactly that decoded value,
with no field added, removed, or renamed. -/
theorem c1_success_passthrough (url : String) (headers : Headers) {method : String}
    (data params : Option Json) (files : Option Files) (debug : Bool)
    {r : HttpResponse} {j : Json}
    (hm : supportedMethod method) (hs : r.status_code = 200) (hb : r.jsonBody = some j) :
    (make_api_request url headers method data params files debug (Outcome.resp r)).result
      = j := by
  obtain ⟨c, hc⟩ := selectCall_ok_of_supported url headers data params files hm
  simp [make_api_request, hc, hs, hb]

/-- Witness for C1: the concrete scenario of the specification, a GET that
receives status 200 with decoded body containing id and name fields. -/
theorem c1_success_passthrough_witness :
    supportedMethod "GET" ∧
    (make_api_request "https://x.n7c.xano.io/api:meta/workspace" [] "GET"
        none none none false
        (Outcome.resp ⟨200, some (Json.obj [("id", Json.num 1), ("name", Json.str "default")]),
          "body"⟩)).result
      = Json.obj [("id", Json.num 1), ("name", Json.str "default")] :=
  ⟨Or.inl rfl,
   c1_success_passthrough "https://x.n7c.xano.io/api:meta/workspace" [] none none none false
     (Or.inl rfl) rfl rfl⟩

/-- C3: for every supported method, a response with a status other than
200 yields the error mapping whose message names that status code,
regardless of the response body. -/
theorem c3_non200_status_error (url : String) (headers : Headers) {method : String}
    (data params : Option Json) (files : Option Files) (debug : Bool)
    {r : HttpResponse}
    (hm : supportedMethod method) (hs : r.status_code ≠ 200) :
    (make_api_request url headers method data params files debug (Outcome.resp r)).result
      = Json.obj
          [("error", Json.str ("API request failed with status " ++ toString r.status_code))] := by
  obtain ⟨c, hc⟩ := selectCall_ok_of_supported url headers data params files hm
  simp [make_api_request, hc, hs]

/-- Witness for C3: the concrete 404 scenario of the specification. -/
theorem c3_non200_status_error_witness :
    supportedMethod "GET" ∧ (404 ≠ 200) ∧
    (make_api_request "https://x.n7c.xano.io/api:meta/workspace" [] "GET"
        none none none false (Outcome.resp ⟨404, some Json.null, "not found"⟩)).result
      = Json.obj [("error", Json.str "API request failed with status 404")] :=
  ⟨Or.inl rfl, by decide,
   c3_non200_status_error "https://x.n7c.xano.io/api:meta/workspace" [] none none none false
     (Or.inl rfl) (by decide)⟩

/-- C4 counterexample: a 200 response with an undecodable body produces the
message "Failed to parse response as JSON" (capital F), not the message
"failed to parse response as JSON" stated by the claim. -/
theorem c4_counterexample :
    (make_api_request "u" [] "GET" none none none false
        (Outcome.resp ⟨200, none, "<html>"⟩)).result
      = Json.obj [("error", Json.str "Failed to parse response as JSON")] ∧
    (make_api_request "u" [] "GET" none none none false
        (Outcome.resp ⟨200, none, "<html>"⟩)).result
      ≠ Json.obj [("error", Json.str "failed to parse response as JSON")] := by
  constructor
  · rfl
  · intro h
    have h2 : Json.obj [("error", Json.str "Failed to parse response as JSON")]
        = Json.obj [("error", Json.str "failed to parse response as JSON")] := by
      rw [← h]
      rfl
    simp only [Json.obj.injEq, List.cons.injEq, Prod.mk.injEq, Json.str.injEq, and_true,
      true_and] at h2
    exact absurd h2 (by decide)

/-- C4 (amended): for every supported method, a 200 response whose body
does not decode as JSON yields the error mapping with the fixed message
"Failed to parse response as JSON" — no status code and no raw body in the
result. -/
theorem c4_parse_failure (url : String) (headers : Headers) {method : String}
    (data params : Option Json) (files : Option Files) (debug : Bool)
    {r : HttpResponse}
    (hm : supportedMethod method) (hs : r.status_code = 200) (hb : r.jsonBody = none) :
    (make_api_request url headers method data params files debug (Outcome.resp r)).result
      = Json.obj [("error", Json.str "Failed to parse response as JSON")] := by
  obtain ⟨c, hc⟩ := selectCall_ok_of_supported url headers data params files hm
  simp [make_api_request, hc, hs, hb]

/-- Witness for C4 (amended): concrete undecodable 200 body. -/
theorem c4_parse_failure_witness :
    supportedMethod "POST" ∧
    (make_api_request "u" [] "POST" (some (Json.obj [("name", Json.str "widget")]))
        none none false (Outcome.resp ⟨200, none, "<html>"⟩)).result
      = Json.obj [("error", Json.str "Failed to parse response as JSON")] :=
  ⟨Or.inr (Or.inl rfl),
   c4_parse_failure "u" [] (some (Json.obj [("name", Json.str "widget")])) none none false
     (Or.inr (Or.inl rfl)) rfl rfl⟩

/-- C5: for every method value outside the supported five, the dispatcher
issues no network call and returns the unsupported-method failure, an
error mapping of the same single-key shape as every other error, with no
status code. -/
theorem c5_unsupported_method (url : String) (headers : Headers) {method : String}
    (data params : Option Json) (files : Option Files) (debug : Bool) (outcome : Outcome)
    (hm : ¬ supportedMethod method) :
    (make_api_request url headers method data params files debug outcome).call = none ∧
    (make_api_request url headers method data params files debug outcome).result
      = Json.obj
          [("error", Json.str
            ("Exception during API request: " ++ ("Unsupported method: " ++ method)))] := by
  have hc := selectCall_unsupported_eq url headers data params files hm
  constructor <;> simp [make_api_request, hc]

/-- Witness for C5: the method value FOO. -/
theorem c5_unsupported_method_witness :
    ¬ supportedMethod "FOO" ∧
    (make_api_request "u" [] "FOO" none none none false
        (Outcome.resp ⟨200, some Json.null, ""⟩)).call = none ∧
    (make_api_request "u" [] "FOO" none none none false
        (Outcome.resp ⟨200, some Json.null, ""⟩)).result
      = Json.obj [("error", Json.str "Exception during API request: Unsupported method: FOO")] := by
  have hm : ¬ supportedMethod "FOO" := by simp [supportedMethod]
  exact ⟨hm,
    (c5_unsupported_method "u" [] none none none false
      (Outcome.resp ⟨200, some Json.null, ""⟩) hm).1,
    (c5_unsupported_method "u" [] none none none false
      (Outcome.resp ⟨200, some Json.null, ""⟩) hm).2⟩

/-- C2: every dispatch returns exactly one Result — the decoded JSON value
of a 200 response, or an error mapping — and an exception raised by the
transport during a supported call is converted into an error mapping whose
single key is the error message containing the description of the fault
(so no status code in it). -/
theorem c2_always_one_result (url : String) (headers : Headers) (method : String)
    (data params : Option Json) (files : Option Files) (debug : Bool) (outcome : Outcome) :
    ((∃ msg, (make_api_request url headers method data params files debug outcome).result
        = Json.obj [("error", Json.str msg)]) ∨
      (∃ r j, outcome = Outcome.resp r ∧ r.status_code = 200 ∧ r.jsonBody = some j ∧
        (make_api_request url headers method data params files debug outcome).result = j)) ∧
    (∀ emsg, supportedMethod method → outcome = Outcome.raised emsg →
      (make_api_request url headers method data params files debug outcome).result
        = Json.obj [("error", Json.str ("Exception during API request: " ++ emsg))] ∧
      ∃ pre post, ("Exception during API request: " ++ emsg) = pre ++ emsg ++ post) := by
  constructor
  · cases hsel : selectCall url headers method data params files with
    | error e =>
      exact Or.inl ⟨"Exception during API request: " ++ e, by simp [make_api_request, hsel]⟩
    | ok c =>
      cases outcome with
      | raised m =>
        exact Or.inl ⟨"Exception during API request: " ++ m, by simp [make_api_request, hsel]⟩
      | resp r =>
        by_cases hs : r.status_code = 200
        · cases hb : r.jsonBody with
          | none =>
            exact Or.inl ⟨"Failed to parse response as JSON",
              by simp [make_api_request, hsel, hs, hb]⟩
          | some j =>
            exact Or.inr ⟨r, j, rfl, hs, hb, by simp [make_api_request, hsel, hs, hb]⟩
        · exact Or.inl ⟨"API request failed with status " ++ toString r.status_code,
            by simp [make_api_request, hsel, hs]⟩
  · intro emsg hm ho
    subst ho
    obtain ⟨c, hc⟩ := selectCall_ok_of_supported url headers data params files hm
    refine ⟨by simp [make_api_request, hc], "Exception during API request: ", "", ?_⟩
    simp

/-- Witness for C2: a concrete transport fault on a DELETE call. -/
theorem c2_always_one_result_witness :
    supportedMethod "DELETE" ∧
    (make_api_request "u" [] "DELETE" none none none false
        (Outcome.raised "connection refused")).result
      = Json.obj [("error", Json.str "Exception during API request: connection refused")] :=
  ⟨Or.inr (Or.inr (Or.inr (Or.inl rfl))),
   ((c2_always_one_result "u" [] "DELETE" none none none false
       (Outcome.raised "connection refused")).2 "connection refused"
     (Or.inr (Or.inr (Or.inr (Or.inl rfl)))) rfl).1⟩

/-- C9: the debug flag never alters the outbound request or the returned
value — two runs differing only in the debug flag issue the same call and
return the same Result. -/
theorem c9_debug_noninterference (url : String) (headers : Headers) (method : String)
    (data params : Option Json) (files : Option Files) (d1 d2 : Bool) (outcome : Outcome) :
    (make_api_request url headers method data params files d1 outcome).call
      = (make_api_request url headers method data params files d2 outcome).call ∧
    (make_api_request url headers method data params files d1 outcome).result
      = (make_api_request url headers method data params files d2 outcome).result := by
  cases hsel : selectCall url headers method data params files with
  | error e => simp [make_api_request, hsel]
  | ok c =>
    cases outcome with
    | raised m => simp [make_api_request, hsel]
    | resp r =>
      by_cases hs : r.status_code = 200
      · cases hb : r.jsonBody <;> simp [make_api_request, hsel, hs, hb]
      · simp [make_api_request, hsel, hs]

/-- A prefix of a list unchanged by dropWhile is itself unchanged by
dropWhile. -/
theorem dropWhile_eq_self_of_start {α : Type} (p : α → Bool) {m t : List α}
    (ht : t <+: m) (hm : List.dropWhile p m = m) : List.dropWhile p t = t := by
  cases t with
  | nil => rfl
  | cons a tl =>
    obtain ⟨u, hu⟩ := ht
    have hpa : p a = false := by
      by_contra hp
      have hpa : p a = true := by
        cases hval : p a with
        | true => rfl
        | false => exact absurd hval hp
      rw [← hu] at hm
      rw [List.cons_append, List.dropWhile_cons_of_pos hpa] at hm
      have hsfx := List.dropWhile_suffix (l := tl ++ u) p
      have hlen := List.IsSuffix.length_le hsfx
      rw [hm] at hlen
      simp at hlen
    exact List.dropWhile_cons_of_neg (by simp [hpa])

/-- Stripping is idempotent. -/
theorem pyStrip_idem (chars : List Char) (s : String) :
    pyStrip chars (pyStrip chars s) = pyStrip chars s := by
  unfold pyStrip
  have hmk : (String.mk (List.rdropWhile (stripSet chars)
      (List.dropWhile (stripSet chars) s.toList))).toList
      = List.rdropWhile (stripSet chars) (List.dropWhile (stripSet chars) s.toList) := rfl
  rw [hmk]
  have hfix : List.dropWhile (stripSet chars)
      (List.rdropWhile (stripSet chars) (List.dropWhile (stripSet chars) s.toList))
      = List.rdropWhile (stripSet chars) (List.dropWhile (stripSet chars) s.toList) := by
    have hpre := List.rdropWhile_prefix (stripSet chars)
      (List.dropWhile (stripSet chars) s.toList)
    exact dropWhile_eq_self_of_start (stripSet chars) hpre (List.dropWhile_idempotent _ _)
  rw [hfix, List.rdropWhile_idempotent]

/-- Wrapping a string in one more pair of quote characters does not change
the stripped value. -/
theorem pyStrip_quote_wrap (s : String) :
    pyStrip ['\"'] ("\"" ++ s ++ "\"") = pyStrip ['\"'] s := by
  unfold pyStrip
  have hq : stripSet ['\"'] '\"' = true := rfl
  have htl : ("\"" ++ s ++ "\"").toList = ('\"' :: s.toList) ++ ['\"'] := by
    show ("\"" ++ s ++ "\"").data = ('\"' :: s.data) ++ ['\"']
    rw [String.data_append, String.data_append]
    rfl
  rw [htl, List.cons_append, List.dropWhile_cons_of_pos hq]
  by_cases hnil : List.dropWhile (stripSet ['\"']) s.toList = []
  · have hall : ∀ x ∈ s.toList, stripSet ['\"'] x = true :=
      List.dropWhile_eq_nil_iff.mp hnil
    have hall2 : List.dropWhile (stripSet ['\"']) (s.toList ++ ['\"']) = [] := by
      apply List.dropWhile_eq_nil_iff.mpr
      intro x hx
      rcases List.mem_append.mp hx with hx | hx
      · exact hall x hx
      · simp only [List.mem_singleton] at hx
        rw [hx]
        exact hq
    rw [hall2, hnil]
  · have happ : List.dropWhile (stripSet ['\"']) (s.toList ++ ['\"'])
        = List.dropWhile (stripSet ['\"']) s.toList ++ ['\"'] := by
      rw [List.dropWhile_append]
      simp only [List.isEmpty_iff]
      rw [if_neg hnil]
    rw [happ, List.rdropWhile_concat_pos _ _ _ hq]

/-- C7: identifier normalization.  Stripping ignores surrounding quote
characters, so a quoted and an unquoted identifier interpolate to the same
URL; the concrete identifier 123 normalizes identically whether supplied
as a bare integer, a plain string, or a quoted string; and normalization
is idempotent. -/
theorem c7_identifier_normalization :
    (∀ s : String, formatIdStr ("\"" ++ s ++ "\"") = formatIdStr s) ∧
    (∀ inst w t : String,
      xano_get_table_details_url inst ("\"" ++ w ++ "\"") ("\"" ++ t ++ "\"")
        = xano_get_table_details_url inst w t) ∧
    format_id (IdValue.str "\"123\"") = some "123" ∧
    format_id (IdValue.str "123") = some "123" ∧
    format_id (IdValue.int 123) = some "123" ∧
    (∀ s : String, formatIdStr (formatIdStr s) = formatIdStr s) := by
  refine ⟨fun s => pyStrip_quote_wrap s, ?_, rfl, rfl, rfl,
    fun s => pyStrip_idem ['\"'] s⟩
  intro inst w t
  unfold xano_get_table_details_url
  rw [show formatIdStr ("\"" ++ w ++ "\"") = formatIdStr w from pyStrip_quote_wrap w,
    show formatIdStr ("\"" ++ t ++ "\"") = formatIdStr t from pyStrip_quote_wrap t]

/-- C8 counterexample: with no configuration override and the environment
variable set to the empty string, `get_token` exits with code 1 instead of
returning the set value. -/
theorem c8_counterexample :
    get_token none (some "") = Except.error 1 ∧
    get_token none (some "") ≠ Except.ok "" := by
  refine ⟨rfl, fun h => ?_⟩
  have h2 : (Except.error 1 : Except Nat String) = Except.ok "" := by
    rw [← h]
    rfl
  exact Except.noConfusion h2

/-- C8 (amended): `get_token` returns the api_token entry of the
configuration when present; otherwise it returns the XANO_API_TOKEN
environment variable when that is set to a non-empty string; otherwise
(unset, or set to the empty string) it terminates the process with exit
code 1. -/
theorem c8_token_resolution (config : Option Config) (env : Option String) :
    (∀ t, config.bind (fun c => c.api_token) = some t →
      get_token config env = Except.ok t) ∧
    (∀ v, config.bind (fun c => c.api_token) = none → env = some v → v ≠ "" →
      get_token config env = Except.ok v) ∧
    (config.bind (fun c => c.api_token) = none → (env = none ∨ env = some "") →
      get_token config env = Except.error 1) := by
  refine ⟨fun t ht => ?_, fun v hc he hv => ?_, fun hc he => ?_⟩
  · unfold get_token
    rw [ht]
  · unfold get_token
    rw [hc, he]
    simp [hv]
  · unfold get_token
    rw [hc]
    rcases he with he | he <;> rw [he]
    simp

/-- Witness for C8 (amended): the three branches at concrete inputs. -/
theorem c8_token_resolution_witness :
    get_token (some ⟨some "tok", none⟩) none = Except.ok "tok" ∧
    get_token none (some "envtok") = Except.ok "envtok" ∧
    get_token none none = Except.error 1 :=
  ⟨(c8_token_resolution (some ⟨some "tok", none⟩) none).1 "tok" rfl,
   (c8_token_resolution none (some "envtok")).2.1 "envtok" rfl rfl (by decide),
   (c8_token_resolution none none).2.2 rfl (Or.inl rfl)⟩

/-- A successful key lookup implies key presence. -/
theorem hasKeyB_of_lookupKey {fields : List (String × Json)} {k : String} {v : Json}
    (h : lookupKey fields k = some v) : hasKeyB fields k = true := by
  unfold lookupKey at h
  unfold hasKeyB
  cases hf : fields.find? (fun kv => kv.1 == k) with
  | none => rw [hf] at h; exact Option.noConfusion h
  | some kv =>
    have hp := List.find?_some hf
    have hmem := List.mem_of_find?_eq_some hf
    exact List.any_eq_true.mpr ⟨kv, hmem, hp⟩

/-- C6 counterexample: a 200 response whose decoded body is the number 5
is neither an error mapping nor carries an instances member, yet
`xano_list_instances` raises an uncaught TypeError (the membership test
`"error" not in result` is applied to a non-container) instead of
returning the hardcoded placeholder. -/
theorem c6_counterexample :
    xano_list_instances (some ⟨some "t", none⟩) none
        (Outcome.resp ⟨200, some (Json.num 5), "5"⟩)
      = Except.error PyFault.typeError ∧
    xano_list_instances (some ⟨some "t", none⟩) none
        (Outcome.resp ⟨200, some (Json.num 5), "5"⟩)
      ≠ Except.ok fallbackInstances := by
  refine ⟨rfl, fun h => ?_⟩
  have h2 : (Except.error PyFault.typeError : Except PyFault Json)
      = Except.ok fallbackInstances := by
    rw [← h]
    rfl
  exact Except.noConfusion h2

/-- C6 (amended): whenever the dispatcher result of the auth/me call is a
mapping, `xano_list_instances` returns the mapping's instances member
wrapped as the instances field when the mapping has no error key and has
an instances key, and the hardcoded placeholder instance named
xnwv-v1z6-dvnr in every other case; a non-mapping result can instead
escape as an uncaught type fault. -/
theorem c6_instances_fallback (config : Option Config) (env : Option String)
    (outcome : Outcome) (tok : String) (m : List (String × Json))
    (htok : get_token config env = Except.ok tok)
    (hres : (make_api_request (XANO_GLOBAL_API ++ "/auth/me") (mkHeaders tok)
        "GET" none none none (configDebug config) outcome).result = Json.obj m) :
    (∀ v, hasKeyB m "error" = false → lookupKey m "instances" = some v →
      xano_list_instances config env outcome = Except.ok (Json.obj [("instances", v)])) ∧
    ((hasKeyB m "error" = true ∨ hasKeyB m "instances" = false) →
      xano_list_instances config env outcome = Except.ok fallbackInstances) := by
  constructor
  · intro v herr hv
    have hkey := hasKeyB_of_lookupKey hv
    simp [xano_list_instances, htok, hres, strInJson, jsonIndexStr, herr, hkey, hv]
  · intro hcase
    rcases hcase with hcase | hcase
    · simp [xano_list_instances, htok, hres, strInJson, hcase]
    · by_cases herr : hasKeyB m "error" = true
      · simp [xano_list_instances, htok, hres, strInJson, herr]
      · simp only [Bool.not_eq_true] at herr
        simp [xano_list_instances, htok, hres, strInJson, herr, hcase]

/-- Witness for C6 (amended): a mapping with an instances member is
unwrapped and rewrapped, a mapping without one falls back to the
placeholder. -/
theorem c6_instances_fallback_witness :
    xano_list_instances (some ⟨some "t", none⟩) none
        (Outcome.resp ⟨200, some (Json.obj [("instances", Json.arr [])]), ""⟩)
      = Except.ok (Json.obj [("instances", Json.arr [])]) ∧
    xano_list_instances (some ⟨some "t", none⟩) none
        (Outcome.resp ⟨200, some (Json.obj [("x", Json.num 1)]), ""⟩)
      = Except.ok fallbackInstances :=
  ⟨(c6_instances_fallback (some ⟨some "t", none⟩) none
      (Outcome.resp ⟨200, some (Json.obj [("instances", Json.arr [])]), ""⟩)
      "t" [("instances", Json.arr [])] rfl rfl).1 (Json.arr []) rfl rfl,
   (c6_instances_fallback (some ⟨some "t", none⟩) none
      (Outcome.resp ⟨200, some (Json.obj [("x", Json.num 1)]), ""⟩)
      "t" [("x", Json.num 1)] rfl rfl).2 (Or.inr rfl)⟩

/-- C10: whenever the dispatcher result of the underlying call is a
mapping containing the key error — including a successful 200 body that
happens to contain an error field — `xano_list_databases` returns that
mapping unchanged instead of wrapping it under databases, and
`xano_list_tables` returns it unchanged instead of wrapping it under
tables. -/
theorem c10_error_passthrough (instance_name database_name : String)
    (config : Option Config) (env : Option String) (outcome : Outcome)
    (tok : String) (m : List (String × Json))
    (htok : get_token config env = Except.ok tok)
    (hkey : hasKeyB m "error" = true) :
    ((make_api_request (xano_list_databases_url instance_name) (mkHeaders tok)
        "GET" none none none (configDebug config) outcome).result = Json.obj m →
      xano_list_databases instance_name config env outcome = Except.ok (Json.obj m)) ∧
    ((make_api_request (xano_list_tables_url instance_name database_name) (mkHeaders tok)
        "GET" none none none (configDebug config) outcome).result = Json.obj m →
      xano_list_tables instance_name database_name config env outcome
        = Except.ok (Json.obj m)) := by
  constructor
  · intro hres
    simp [xano_list_databases, htok, hres, strInJson, hkey]
  · intro hres
    simp [xano_list_tables, htok, hres, strInJson, hkey]

/-- Witness for C10: a 200 body that is a mapping carrying an error field
is passed through unchanged by both tools. -/
theorem c10_error_passthrough_witness :
    xano_list_databases "i" (some ⟨some "t", none⟩) none
        (Outcome.resp ⟨200, some (Json.obj [("error", Json.str "remote complained")]), ""⟩)
      = Except.ok (Json.obj [("error", Json.str "remote complained")]) ∧
    xano_list_tables "i" "w" (some ⟨some "t", none⟩) none
        (Outcome.resp ⟨200, some (Json.obj [("error", Json.str "remote complained")]), ""⟩)
      = Except.ok (Json.obj [("error", Json.str "remote complained")]) :=
  ⟨(c10_error_passthrough "i" "w" (some ⟨some "t", none⟩) none
      (Outcome.resp ⟨200, some (Json.obj [("error", Json.str "remote complained")]), ""⟩)
      "t" [("error", Json.str "remote complained")] rfl rfl).1 rfl,
   (c10_error_passthrough "i" "w" (some ⟨some "t", none⟩) none
      (Outcome.resp ⟨200, some (Json.obj [("error", Json.str "remote complained")]), ""⟩)
      "t" [("error", Json.str "remote complained")] rfl rfl).2 rfl⟩

end XanoMcp
